import Mathlib

/-
  Verification of the cal-webhook booking-replication service.

  The repository contains four JavaScript handler variants of the same
  Next.js route:
    - route.js (first handler, before the document separator): signed
      webhook only, inline quantity extraction;
    - route.js (second handler): signed webhook with extractQtyFromBooking,
      deepFindQty and a detail re-fetch;
    - unnamed/part_000: signed webhook OR workflow-token authentication, the
      workflow branch replicates from top-level body fields;
    - unnamed/part_001: signed webhook with extractQty and deepFindQty on
      the inbound payload.

  The development below is a shallow embedding of those handlers.  JSON
  values are modelled by the inductive JVal (numbers are modelled as
  integers; the payload fields of interest are integral).  JavaScript
  "undefined" is modelled by Option.none, "null" by JVal.jnull.  The
  outbound provider API is modelled by an oracle giving the result of the
  i-th booking-creation call; every handler returns its HTTP response
  together with the list of creation requests it issued.
-/

namespace CalAuto

/-- JSON value: null, boolean, number (integral), string, array, object. -/
inductive JVal where
  | jnull : JVal
  | jbool (b : Bool) : JVal
  | jnum (n : Int) : JVal
  | jstr (s : String) : JVal
  | jarr (xs : List JVal) : JVal
  | jobj (fields : List (String × JVal)) : JVal
deriving Repr

/-- Decimal digits of a natural number, most significant first; the first
argument is fuel (n itself is always enough). -/
def natDigits : Nat → Nat → List Char
  | 0, _ => []
  | _ + 1, 0 => []
  | fuel + 1, n => natDigits fuel (n / 10) ++ [Char.ofNat (48 + n % 10)]

/-- Decimal string of a natural number (JS Number toString for naturals). -/
def natToStr (n : Nat) : String :=
  if n = 0 then "0" else String.mk (natDigits n n)

/-- Decimal string of an integer (JS Number toString for integers). -/
def intToStr : Int → String
  | Int.ofNat n => natToStr n
  | Int.negSucc m => "-" ++ natToStr (m + 1)

mutual

/-- JS ToString on a JVal: String(v).  Arrays join their elements with
commas (null elements become empty), objects print "[object Object]". -/
def jsToString : JVal → String
  | JVal.jnull => "null"
  | JVal.jbool true => "true"
  | JVal.jbool false => "false"
  | JVal.jnum n => intToStr n
  | JVal.jstr s => s
  | JVal.jarr xs => jsArrJoin xs
  | JVal.jobj _ => "[object Object]"

/-- JS Array.prototype.join with separator "," over JVal elements, as used
by String(arr); null elements join as the empty string. -/
def jsArrJoin : List JVal → String
  | [] => ""
  | [JVal.jnull] => ""
  | [v] => jsToString v
  | JVal.jnull :: vs => "," ++ jsArrJoin vs
  | v :: vs => jsToString v ++ "," ++ jsArrJoin vs

end

/-- Accumulate the leading decimal digit run of a character list, as JS
parseInt does after sign handling: none when no digit was read. -/
def parseDigits : List Char → Option Nat → Option Nat
  | [], acc => acc
  | c :: cs, acc =>
    if c.isDigit then
      parseDigits cs (some ((acc.getD 0) * 10 + (c.toNat - 48)))
    else acc

/-- JS parseInt(s, 10): skip leading whitespace, optional sign, then the
leading digit run; none models NaN (no digit found). -/
def parseIntStr (s : String) : Option Int :=
  let cs := s.toList.dropWhile fun c => c = ' ' ∨ c = '\t' ∨ c = '\n' ∨ c = '\r'
  match cs with
  | '-' :: rest => (parseDigits rest none).map fun n => -(n : Int)
  | '+' :: rest => (parseDigits rest none).map fun n => (n : Int)
  | rest => (parseDigits rest none).map fun n => (n : Int)

/-- JS parseInt(v, 10) on an arbitrary value: ToString then parse; none
models NaN. -/
def jsParseInt (v : JVal) : Option Int :=
  parseIntStr (jsToString v)

/-- Does the character list start with the given pattern. -/
def charsStartWith : List Char → List Char → Bool
  | [], _ => true
  | _ :: _, [] => false
  | p :: ps, c :: cs => p = c && charsStartWith ps cs

/-- Does the character list contain the pattern as a contiguous run. -/
def charsHaveSub (pat : List Char) : List Char → Bool
  | [] => List.isEmpty pat
  | c :: cs => charsStartWith pat (c :: cs) || charsHaveSub pat cs

/-- JS String.prototype.includes. -/
def strContains (s pat : String) : Bool :=
  charsHaveSub pat.toList s.toList

/-- JS String.prototype.toLowerCase (ASCII letters). -/
def lowerStr (s : String) : String :=
  String.mk (s.toList.map Char.toLower)

/-- JS truthiness of a value. -/
def jTruthy : JVal → Bool
  | JVal.jnull => false
  | JVal.jbool b => b
  | JVal.jnum n => n != 0
  | JVal.jstr s => s != ""
  | JVal.jarr _ => true
  | JVal.jobj _ => true

/-- JS truthiness of a possibly-undefined value. -/
def jsTruthyO : Option JVal → Bool
  | none => false
  | some v => jTruthy v

/-- JS a || b. -/
def jsOr (a b : Option JVal) : Option JVal :=
  if jsTruthyO a then a else b

/-- JS a && b (b is the already-evaluated second operand). -/
def jsAnd (a b : Option JVal) : Option JVal :=
  if jsTruthyO a then b else a

/-- JS a ?? b: b when a is undefined or null. -/
def jsNC (a b : Option JVal) : Option JVal :=
  match a with
  | none => b
  | some JVal.jnull => b
  | some v => some v

/-- JS loose equality with null: v == null holds for null and undefined. -/
def jsIsNullish : Option JVal → Bool
  | none => true
  | some JVal.jnull => true
  | _ => false

/-- JS property read obj[k] / obj.k on a value; undefined on non-objects
(the handlers only read string-named properties that arrays, strings and
numbers do not carry). -/
def jGet : JVal → String → Option JVal
  | JVal.jobj fs, k => (fs.find? fun p => p.1 == k).map Prod.snd
  | _, _ => none

/-- JS optional-chain property read o?.k. -/
def jGetO (o : Option JVal) (k : String) : Option JVal :=
  o.bind fun v => jGet v k

/-- JS x[0] on an already-truthy value: first array element, first string
character, or property "0" of an object; undefined otherwise. -/
def jsIndex0 : Option JVal → Option JVal
  | some (JVal.jarr (x :: _)) => some x
  | some (JVal.jarr []) => none
  | some (JVal.jstr s) =>
    match s.toList with
    | [] => none
    | c :: _ => some (JVal.jstr (String.mk [c]))
  | some (JVal.jobj fs) => jGet (JVal.jobj fs) "0"
  | _ => none

/-- JS Array.isArray. -/
def isArr : Option JVal → Bool
  | some (JVal.jarr _) => true
  | _ => false

/-- part_001 toInt(v, d): parseInt, defaulting when the result is not a
finite number. -/
def toInt (v : Option JVal) (d : Int) : Int :=
  match v with
  | none => d
  | some x => (jsParseInt x).getD d

/-- part_001 extractQty: the identifying string of a form-answer entry,
(f?.key || f?.id || f?.name || f?.label || "") + "". -/
def fieldKeyStr (f : JVal) : String :=
  jsToString ((jsOr (jGet f "key") (jsOr (jGet f "id") (jsOr (jGet f "name")
    (jsOr (jGet f "label") (some (JVal.jstr "")))))).getD (JVal.jstr ""))

/-- part_001 extractQty: scan the collected form-answer arrays for an entry
whose identifying string contains "place"; on the first hit, read
value ?? answer ?? response ?? number ?? val and stop. -/
def scanP001 : List (List JVal) → Option JVal → Option JVal
  | [], val => val
  | arr :: rest, val =>
    match arr.find? (fun f => strContains (lowerStr (fieldKeyStr f)) "place") with
    | some hit =>
      jsNC (jGet hit "value") (jsNC (jGet hit "answer")
        (jsNC (jGet hit "response") (jsNC (jGet hit "number") val)))
    | none => scanP001 rest val

/-- part_001 extractQty: the form-answer arrays, in push order
(responses, then formResponses), keeping only actual arrays. -/
def p001Arrays (payload : JVal) : List (List JVal) :=
  (match jGet payload "responses" with
   | some (JVal.jarr xs) => [xs]
   | _ => []) ++
  (match jGet payload "formResponses" with
   | some (JVal.jarr xs) => [xs]
   | _ => [])

/-- part_001 extractQty(payload): direct places / nombre_de_participants
lookup, then a case-insensitive key scan for "place" over the
bookingFieldsResponses mapping, then the form-answer array scan, finally
Math.max(1, Math.min(15, toInt(val, 1))). -/
def extractQty (payload : JVal) : Int :=
  let bfr := jGet payload "bookingFieldsResponses"
  let val0 := jsNC (jGetO bfr "places") (jGetO bfr "nombre_de_participants")
  let val1 :=
    if jsIsNullish val0 && jsTruthyO bfr && !(isArr bfr) then
      match bfr with
      | some (JVal.jobj fs) =>
        match fs.find? (fun p => strContains (lowerStr p.1) "place") with
        | some p => some p.2
        | none => val0
      | _ => val0
    else val0
  let val2 := scanP001 (p001Arrays payload) val1
  max 1 (min 15 (toInt val2 1))

/-- route.js second handler extractQtyFromBooking: identifying string
(f?.key || f?.slug || f?.id || f?.name || f?.label || "") + "". -/
def fieldKeyStrV2 (f : JVal) : String :=
  jsToString ((jsOr (jGet f "key") (jsOr (jGet f "slug") (jsOr (jGet f "id")
    (jsOr (jGet f "name") (jsOr (jGet f "label")
      (some (JVal.jstr ""))))))).getD (JVal.jstr ""))

/-- route.js second handler extractQtyFromBooking: form-answer entry
predicate (identifier contains "place", or question contains "place", or
label contains "participant"). -/
def fieldMatchV2 (f : JVal) : Bool :=
  strContains (lowerStr (fieldKeyStrV2 f)) "place"
  || strContains (lowerStr (jsToString ((jsOr (jGet f "question")
      (some (JVal.jstr ""))).getD (JVal.jstr "")))) "place"
  || strContains (lowerStr (jsToString ((jsOr (jGet f "label")
      (some (JVal.jstr ""))).getD (JVal.jstr "")))) "participant"

/-- route.js second handler extractQtyFromBooking: array scan with value
chain value ?? answer ?? response ?? number ?? text ?? val. -/
def scanV2 : List (List JVal) → Option JVal → Option JVal
  | [], val => val
  | arr :: rest, val =>
    match arr.find? fieldMatchV2 with
    | some hit =>
      jsNC (jGet hit "value") (jsNC (jGet hit "answer")
        (jsNC (jGet hit "response") (jsNC (jGet hit "number")
          (jsNC (jGet hit "text") val))))
    | none => scanV2 rest val

/-- route.js second handler extractQtyFromBooking: the form-answer arrays
in push order (responses, formResponses, answers, attendees[0].responses). -/
def v2Arrays (b : JVal) : List (List JVal) :=
  (match jGet b "responses" with
   | some (JVal.jarr xs) => [xs]
   | _ => []) ++
  (match jGet b "formResponses" with
   | some (JVal.jarr xs) => [xs]
   | _ => []) ++
  (match jGet b "answers" with
   | some (JVal.jarr xs) => [xs]
   | _ => []) ++
  (match jGetO (jsIndex0 (jGet b "attendees")) "responses" with
   | some (JVal.jarr xs) => [xs]
   | _ => [])

/-- route.js second handler extractQtyFromBooking(b). -/
def extractQtyFromBooking (b : JVal) : Int :=
  let bfr := jGet b "bookingFieldsResponses"
  let val0 := jsNC (jGetO bfr "places") (jGetO bfr "nombre_de_participants")
  let val1 :=
    if jsIsNullish val0 && jsTruthyO bfr && !(isArr bfr) then
      match bfr with
      | some (JVal.jobj fs) =>
        match fs.find? (fun p => strContains (lowerStr p.1) "place") with
        | some p => some p.2
        | none => val0
      | _ => val0
    else val0
  let val2 := scanV2 (v2Arrays b) val1
  max 1 (min 15 (toInt val2 1))

/-- JS typeof v !== "object": true for booleans, numbers and strings
(typeof null is "object"). -/
def isLeafType : JVal → Bool
  | JVal.jbool _ => true
  | JVal.jnum _ => true
  | JVal.jstr _ => true
  | _ => false

/-- deepFindQty key test: lower-cased key contains "place" or
"participant". -/
def deepKeyMatch (k : String) : Bool :=
  strContains (lowerStr k) "place" || strContains (lowerStr k) "participant"

/-- deepFindQty: iterate the entries of one object in order; on the first
non-object value under a matching key whose parseInt is finite, report it
(break); otherwise push every visited value onto the stack. -/
def objScan : List (String × JVal) → List JVal → Int ⊕ List JVal
  | [], st => Sum.inr st
  | (k, v) :: es, st =>
    if isLeafType v && deepKeyMatch k then
      match jsParseInt v with
      | some n => Sum.inl n
      | none => objScan es (v :: st)
    else objScan es (v :: st)

mutual

/-- Structural size of a JVal, the termination measure of deepFindQty. -/
def jsize : JVal → Nat
  | JVal.jnull => 1
  | JVal.jbool _ => 1
  | JVal.jnum _ => 1
  | JVal.jstr _ => 1
  | JVal.jarr xs => 1 + jsizeL xs
  | JVal.jobj fs => 1 + jsizeF fs

/-- Total size of a list of JVals. -/
def jsizeL : List JVal → Nat
  | [] => 0
  | v :: vs => jsize v + jsizeL vs

/-- Total size of the values of an entry list. -/
def jsizeF : List (String × JVal) → Nat
  | [] => 0
  | (_, v) :: fs => jsize v + jsizeF fs

end

theorem jsize_pos (v : JVal) : 0 < jsize v := by
  cases v <;> simp [jsize]

theorem jsizeL_append (a b : List JVal) :
    jsizeL (a ++ b) = jsizeL a + jsizeL b := by
  induction a with
  | nil => simp [jsizeL]
  | cons x xs ih => simp [jsizeL, ih]; omega

theorem jsizeL_reverse (l : List JVal) : jsizeL l.reverse = jsizeL l := by
  induction l with
  | nil => rfl
  | cons x xs ih => simp [jsizeL, List.reverse_cons, jsizeL_append, ih]; omega

theorem objScan_inr_W (es : List (String × JVal)) (st st' : List JVal)
    (h : objScan es st = Sum.inr st') :
    jsizeL st' ≤ jsizeF es + jsizeL st := by
  induction es generalizing st with
  | nil =>
    simp [objScan] at h
    simp [h, jsizeF]
  | cons p es ih =>
    obtain ⟨k, v⟩ := p
    simp only [objScan] at h
    by_cases hc : (isLeafType v && deepKeyMatch k) = true
    · rw [if_pos hc] at h
      cases hp : jsParseInt v with
      | some n => rw [hp] at h; exact absurd h (by simp)
      | none =>
        rw [hp] at h
        have := ih _ h
        simp [jsizeF, jsizeL] at this ⊢
        omega
    · rw [if_neg hc] at h
      have := ih _ h
      simp [jsizeF, jsizeL] at this ⊢
      omega

set_option linter.unusedVariables false in
/-- deepFindQty worklist loop: pop, scan objects for a matching numeric
leaf, push children of objects and arrays. -/
def deepLoop : List JVal → Option Int
  | [] => none
  | cur :: rest =>
    match cur with
    | JVal.jobj fs =>
      match h : objScan fs rest with
      | Sum.inl n => some n
      | Sum.inr st => deepLoop st
    | JVal.jarr xs => deepLoop (xs.reverse ++ rest)
    | _ => deepLoop rest
termination_by st => jsizeL st
decreasing_by
  · have h1 := objScan_inr_W _ _ _ h
    have h2 : jsizeF fs < jsize (JVal.jobj fs) := by simp [jsize]
    simp [jsizeL] at h1 ⊢
    omega
  · have h1 : jsizeL xs < jsize (JVal.jarr xs) := by simp [jsize]
    simp [jsizeL, jsizeL_append, jsizeL_reverse]
    omega
  · exact Nat.lt_add_of_pos_left (jsize_pos _)

/-- part_001 / route.js second handler deepFindQty(obj): unordered deep
traversal; null when nothing found, otherwise the clamped value. -/
def deepFindQty (obj : JVal) : Option Int :=
  match deepLoop [obj] with
  | none => none
  | some n => some (max 1 (min 15 n))

/-- part_001 POST quantity resolution: extractQty, then deepFindQty as a
fallback when the result is still 1. -/
def part001ResolvedQty (b : JVal) : Int :=
  let qty := extractQty b
  if qty = 1 then
    match deepFindQty b with
    | some alt => alt
    | none => qty
  else qty

/-- route.js first handler quantity computation (lines 48-55):
qtyRaw = bookingFieldsResponses.places ?? responses.places ??
formResponses.places ?? 1, then Math.max(1, Math.min(15,
parseInt(qtyRaw || 1, 10))); none models NaN, which Math.min and Math.max
propagate. -/
def routeV1Qty (b : JVal) : Option Int :=
  let qtyRaw := jsNC (jGetO (jGet b "bookingFieldsResponses") "places")
    (jsNC (jGetO (jGet b "responses") "places")
      (jsNC (jGetO (jGet b "formResponses") "places") (some (JVal.jnum 1))))
  ((jsOr qtyRaw (some (JVal.jnum 1))).bind jsParseInt).map fun n =>
    max 1 (min 15 n)

/-- route.js second handler detail refinement (lines 245-249):
fromDetail = extractQtyFromBooking(detail) ?? deepFindQty(detail).  The
left operand is always a number, so the nullish coalescing never reaches
deepFindQty. -/
def v2FromDetail (detail : JVal) : Option JVal :=
  jsNC (some (JVal.jnum (extractQtyFromBooking detail)))
    ((deepFindQty detail).map JVal.jnum)

/-- JS fromDetail > 1 (fromDetail is numeric here). -/
def jsGTone : Option JVal → Bool
  | some (JVal.jnum n) => n > 1
  | _ => false

/-- route.js second handler: if (fromDetail && fromDetail > 1) qty =
fromDetail. -/
def v2RefineQty (qty : Int) (detail : JVal) : Int :=
  let fromDetail := v2FromDetail detail
  if jsTruthyO fromDetail && jsGTone fromDetail then
    match fromDetail with
    | some (JVal.jnum n) => n
    | _ => qty
  else qty

/-- Result of one outbound POST /v2/bookings call, as seen through r.ok,
r.status and the diagnostic body text. -/
inductive CallResult where
  | ok : CallResult
  | fail (status : Int) (text : String) : CallResult

/-- The JSON body of one outbound booking-creation call (eventTypeId,
start, timeZone, the single attendee, the replication marker and the
places custom-field response). -/
structure CreateReq where
  eventTypeId : Option JVal
  start : Option JVal
  timeZone : Option JVal
  attName : Option JVal
  attEmail : Option JVal
  attTZ : Option JVal
  multiParentUid : Option JVal
  places : JVal

/-- An HTTP response: status code and JSON body fields in order. -/
structure HttpResponse where
  status : Nat
  body : List (String × JVal)

/-- The sequential creation loop for(i = 0; i < extra; i++): attempt the
given number of calls starting at index i, all with the same request body;
returns the requests actually sent, the number of successes, and the
failure (status, text) that stopped the loop, if any. -/
def runCreateLoop (oracle : Nat → CallResult) (req : CreateReq) :
    Nat → Nat → List CreateReq × Nat × Option (Int × String)
  | 0, _ => ([], 0, none)
  | Nat.succ n, i =>
    match oracle i with
    | CallResult.ok =>
      let r := runCreateLoop oracle req n (i + 1)
      (req :: r.1, r.2.1 + 1, r.2.2)
    | CallResult.fail s t => ([req], 0, some (s, t))

/-- verifySignature(rawBody, header), the HMAC computation abstracted as a
function argument: false when the secret or the header is missing or
empty, otherwise exact string comparison against the digest. -/
def verifySig (hmac : String → String → String) (secret raw : String)
    (header : Option String) : Bool :=
  if secret = "" then false
  else match header with
    | none => false
    | some h => if h = "" then false else h == hmac secret raw

/-- JSON.parse(raw || "{}"): the empty raw body parses to the empty
object; the parse outcome of a nonempty body is supplied as a parameter,
none modelling a thrown SyntaxError. -/
def parseBody (raw : String) (parsed : Option JVal) : Option JVal :=
  if raw = "" then some (JVal.jobj []) else parsed

/-- Model of the message of the SyntaxError thrown by JSON.parse and
reported by the outer catch as e.message. -/
def parseErrorMsg : String := "Unexpected token in JSON"

/-- Model of the message of the TypeError thrown by normEvt when the event
value is truthy but not a string. -/
def typeErrorMsg : String := "evt.toLowerCase is not a function"

/-- Replace every underscore by a dot (the regex replace of normEvt). -/
def replaceUnderscore (s : String) : String :=
  String.mk (s.toList.map fun c => if c = '_' then '.' else c)

/-- normEvt(evt): (evt || "").toLowerCase().replace(/_/g, "."); none
models the TypeError thrown when evt is truthy but not a string. -/
def normEvtM (v : Option JVal) : Option String :=
  match jsOr v (some (JVal.jstr "")) with
  | some (JVal.jstr s) => some (replaceUnderscore (lowerStr s))
  | _ => none

/-- body?.payload || body?.data || {}. -/
def payloadOf (body : JVal) : JVal :=
  (jsOr (jGet body "payload") (jsOr (jGet body "data")
    (some (JVal.jobj [])))).getD (JVal.jobj [])

/-- b?.metadata?.multiParentUid, the replication marker lookup. -/
def markerOf (b : JVal) : Option JVal :=
  jGetO (jGet b "metadata") "multiParentUid"

/-- The fallback attendee object used when the booking carries none. -/
def defaultAttendee : JVal :=
  JVal.jobj [("name", JVal.jstr "Invité"),
    ("email", JVal.jstr "no-reply@cosette.fr"),
    ("timeZone", JVal.jstr "Europe/Paris")]

/-- b?.eventTypeId || b?.eventType?.id (route.js both handlers and
part_001). -/
def eventTypeIdOf (b : JVal) : Option JVal :=
  jsOr (jGet b "eventTypeId") (jGetO (jGet b "eventType") "id")

/-- route.js first handler: b?.start || b?.when?.startTime. -/
def v1Start (b : JVal) : Option JVal :=
  jsOr (jGet b "start") (jGetO (jGet b "when") "startTime")

/-- route.js first handler: (b?.attendees && b.attendees[0]) ||
b?.attendee || the default attendee. -/
def v1Attendee (b : JVal) : Option JVal :=
  jsOr (jsAnd (jGet b "attendees") (jsIndex0 (jGet b "attendees")))
    (jsOr (jGet b "attendee") (some defaultAttendee))

/-- route.js first handler event string: body?.triggerEvent || body?.type
|| "", coerced by the template literal. -/
def v1Evt (body : JVal) : JVal :=
  (jsOr (jGet body "triggerEvent") (jsOr (jGet body "type")
    (some (JVal.jstr "")))).getD (JVal.jstr "")

/-- NaN-aware serialization: JSON.stringify turns NaN into null. -/
def optIntJ : Option Int → JVal
  | none => JVal.jnull
  | some n => JVal.jnum n

/-- JS (extra <= 0): false when extra is NaN. -/
def extraNonPos : Option Int → Bool
  | some e => e ≤ 0
  | none => false

/-- Iteration count of for(let i = 0; i < extra; i++): NaN iterates zero
times. -/
def extraIter : Option Int → Nat
  | some e => e.toNat
  | none => 0

/-- route.js first handler: the body of each booking-creation call. -/
def v1Req (b : JVal) (qty : Option Int) : CreateReq :=
  let att := v1Attendee b
  { eventTypeId := eventTypeIdOf b
    start := v1Start b
    timeZone := jsOr (jGetO att "timeZone") (some (JVal.jstr "Europe/Paris"))
    attName := jGetO att "name"
    attEmail := jGetO att "email"
    attTZ := jsOr (jGetO att "timeZone") (some (JVal.jstr "Europe/Paris"))
    multiParentUid := jsOr (jGet b "uid") (jsOr (jGet b "id")
      (some (JVal.jstr "primary")))
    places := optIntJ qty }

/-- route.js first handler from the anti-loop check onward: marker skip,
quantity, single-seat return, field validation, API-key check, creation
loop. -/
def routeV1Handle (apiKey : String) (oracle : Nat → CallResult) (b : JVal) :
    HttpResponse × List CreateReq :=
  if jsTruthyO (markerOf b) then
    (⟨200, [("ok", JVal.jbool true), ("skipped", JVal.jstr "child booking")]⟩, [])
  else
    let qty := routeV1Qty b
    let extra := qty.map (· - 1)
    if extraNonPos extra then
      (⟨200, [("ok", JVal.jbool true), ("info", JVal.jstr "single seat")]⟩, [])
    else
      let att := v1Attendee b
      if !(jsTruthyO (eventTypeIdOf b)) || !(jsTruthyO (v1Start b))
          || !(jsTruthyO (jGetO att "email")) then
        (⟨400, [("ok", JVal.jbool false),
          ("error", JVal.jstr "missing data (eventTypeId/start/attendee)")]⟩, [])
      else if apiKey = "" then
        (⟨500, [("ok", JVal.jbool false), ("error", JVal.jstr "missing CAL_API_KEY")]⟩, [])
      else
        let r := runCreateLoop oracle (v1Req b qty) (extraIter extra) 0
        match r.2.2 with
        | some (st, txt) =>
          (⟨400, [("ok", JVal.jbool false),
            ("error", JVal.jstr ("create booking failed: " ++ intToStr st ++ " " ++ txt))]⟩, r.1)
        | none =>
          (⟨200, [("ok", JVal.jbool true), ("created", JVal.jnum (Int.ofNat r.2.1)),
            ("qty", optIntJ qty), ("extra", optIntJ extra)]⟩, r.1)

/-- route.js first handler POST: signature check, JSON parse (a throw is
reported by the outer catch as a 500), event filter, then the payload
processing. -/
def routeV1Post (hmac : String → String → String) (secret apiKey raw : String)
    (sig : Option String) (parsed : Option JVal) (oracle : Nat → CallResult) :
    HttpResponse × List CreateReq :=
  if !(verifySig hmac secret raw sig) then
    (⟨401, [("ok", JVal.jbool false), ("error", JVal.jstr "invalid signature")]⟩, [])
  else
    match parseBody raw parsed with
    | none => (⟨500, [("ok", JVal.jbool false), ("error", JVal.jstr parseErrorMsg)]⟩, [])
    | some body =>
      if !(strContains (lowerStr (jsToString (v1Evt body))) "booking.created") then
        (⟨200, [("ok", JVal.jbool true), ("skipped", JVal.jstr "not booking.created")]⟩, [])
      else routeV1Handle apiKey oracle (payloadOf body)

/-- part_001 / part_000 event value: body?.triggerEvent || body?.type. -/
def evtRawOf (body : JVal) : Option JVal :=
  jsOr (jGet body "triggerEvent") (jGet body "type")

/-- part_001: b?.start || b?.startTime || b?.when?.startTime ||
b?.when?.start. -/
def p001Start (b : JVal) : Option JVal :=
  jsOr (jGet b "start") (jsOr (jGet b "startTime")
    (jsOr (jGetO (jGet b "when") "startTime") (jGetO (jGet b "when") "start")))

/-- part_001: (Array.isArray(b?.attendees) && b.attendees[0]) ||
b?.attendee || the default attendee. -/
def p001Attendee (b : JVal) : Option JVal :=
  jsOr (jsAnd (some (JVal.jbool (isArr (jGet b "attendees"))))
      (jsIndex0 (jGet b "attendees")))
    (jsOr (jGet b "attendee") (some defaultAttendee))

/-- part_001: the body of each booking-creation call. -/
def p001Req (b : JVal) (qty : Int) : CreateReq :=
  let att := p001Attendee b
  { eventTypeId := eventTypeIdOf b
    start := p001Start b
    timeZone := jsOr (jGetO att "timeZone") (some (JVal.jstr "Europe/Paris"))
    attName := jsOr (jGetO att "name") (some (JVal.jstr "Invité"))
    attEmail := jGetO att "email"
    attTZ := jsOr (jGetO att "timeZone") (some (JVal.jstr "Europe/Paris"))
    multiParentUid := jsOr (jGet b "uid") (jsOr (jGet b "id")
      (some (JVal.jstr "primary")))
    places := JVal.jnum qty }

/-- part_001 from the anti-loop check onward: marker skip, quantity with
deep fallback, API-key check, field validation, single-seat return,
creation loop. -/
def part001Handle (apiKey : String) (oracle : Nat → CallResult) (b : JVal) :
    HttpResponse × List CreateReq :=
  if jsTruthyO (markerOf b) then
    (⟨200, [("ok", JVal.jbool true), ("skipped", JVal.jstr "child booking")]⟩, [])
  else
    let qty := part001ResolvedQty b
    let extra := qty - 1
    let att := p001Attendee b
    if apiKey = "" then
      (⟨500, [("ok", JVal.jbool false), ("error", JVal.jstr "missing CAL_API_KEY")]⟩, [])
    else if !(jsTruthyO (eventTypeIdOf b)) || !(jsTruthyO (p001Start b))
        || !(jsTruthyO (jGetO att "email")) then
      (⟨400, [("ok", JVal.jbool false),
        ("error", JVal.jstr "missing eventTypeId/start/attendee")]⟩, [])
    else if extra ≤ 0 then
      (⟨200, [("ok", JVal.jbool true), ("info", JVal.jstr "single seat"),
        ("qty", JVal.jnum qty)]⟩, [])
    else
      let r := runCreateLoop oracle (p001Req b qty) extra.toNat 0
      match r.2.2 with
      | some (st, txt) =>
        (⟨400, [("ok", JVal.jbool false), ("error", JVal.jstr "create failed"),
          ("status", JVal.jnum st), ("details", JVal.jstr txt)]⟩, r.1)
      | none =>
        (⟨200, [("ok", JVal.jbool true), ("qty", JVal.jnum qty),
          ("extra", JVal.jnum extra), ("created", JVal.jnum (Int.ofNat r.2.1))]⟩, r.1)

/-- part_001 POST: signature check, JSON parse (a throw is reported by the
outer catch as a 500), normalized event filter, then the payload
processing. -/
def part001Post (hmac : String → String → String) (secret apiKey raw : String)
    (sig : Option String) (parsed : Option JVal) (oracle : Nat → CallResult) :
    HttpResponse × List CreateReq :=
  if !(verifySig hmac secret raw sig) then
    (⟨401, [("ok", JVal.jbool false), ("error", JVal.jstr "invalid signature")]⟩, [])
  else
    match parseBody raw parsed with
    | none => (⟨500, [("ok", JVal.jbool false), ("error", JVal.jstr parseErrorMsg)]⟩, [])
    | some body =>
      match normEvtM (evtRawOf body) with
      | none => (⟨500, [("ok", JVal.jbool false), ("error", JVal.jstr typeErrorMsg)]⟩, [])
      | some evt =>
        if !(strContains evt "booking.created") then
          (⟨200, [("ok", JVal.jbool true),
            ("skipped", JVal.jstr (if evt = "" then "unknown" else evt))]⟩, [])
        else part001Handle apiKey oracle (payloadOf body)

/-- part_000 hasWorkflowToken: wfToken && WORKFLOW_TOKEN && wfToken ===
WORKFLOW_TOKEN. -/
def p000HasWf (wfParam : Option String) (wfSecret : String) : Bool :=
  match wfParam with
  | some t => t != "" && wfSecret != "" && t == wfSecret
  | none => false

/-- part_000 isSignedWebhook: !!sig && !!CAL_WEBHOOK_SECRET &&
verifySignature(raw, sig). -/
def p000IsSigned (hmac : String → String → String) (secret raw : String)
    (sig : Option String) : Bool :=
  (match sig with | some s => s != "" | none => false) && secret != ""
    && verifySig hmac secret raw sig

/-- part_000 authorization verdict: signature valid or workflow token
valid. -/
def part000Auth (hmac : String → String → String) (secret wfSecret raw : String)
    (sig wfParam : Option String) : Bool :=
  p000IsSigned hmac secret raw sig || p000HasWf wfParam wfSecret

/-- part_000 clampQty(n): parseInt, 1 when not finite, then clamp to
[1, 15]. -/
def clampQty (v : Option JVal) : Int :=
  match v with
  | none => 1
  | some x =>
    match jsParseInt x with
    | none => 1
    | some q => max 1 (min 15 q)

/-- part_000 workflow quantity: clampQty(body.qty ?? body.places ??
body.count ?? 1). -/
def p000Qty (body : JVal) : Int :=
  clampQty (jsNC (jGet body "qty") (jsNC (jGet body "places")
    (jsNC (jGet body "count") (some (JVal.jnum 1)))))

/-- part_000 workflow: body.eventTypeId ?? body.eventType?.id. -/
def p000EventTypeId (body : JVal) : Option JVal :=
  jsNC (jGet body "eventTypeId") (jGetO (jGet body "eventType") "id")

/-- part_000 workflow: body.start ?? body.when?.start ?? body.startTime. -/
def p000Start (body : JVal) : Option JVal :=
  jsNC (jGet body "start") (jsNC (jGetO (jGet body "when") "start")
    (jGet body "startTime"))

/-- part_000 workflow: body.attendee || {}. -/
def p000AttendeeVal (body : JVal) : Option JVal :=
  jsOr (jGet body "attendee") (some (JVal.jobj []))

/-- part_000 workflow: attendee.email || body.email. -/
def p000Email (body : JVal) : Option JVal :=
  jsOr (jGetO (p000AttendeeVal body) "email") (jGet body "email")

/-- part_000 workflow: the body of each booking-creation call. -/
def p000Req (body : JVal) : CreateReq :=
  let att := p000AttendeeVal body
  { eventTypeId := p000EventTypeId body
    start := p000Start body
    timeZone := jsOr (jGetO att "timeZone") (some (JVal.jstr "Europe/Paris"))
    attName := jsOr (jGetO att "name") (some (JVal.jstr "Invité"))
    attEmail := p000Email body
    attTZ := jsOr (jGetO att "timeZone") (some (JVal.jstr "Europe/Paris"))
    multiParentUid := jsOr (jGet body "uid") (some (JVal.jstr "primary"))
    places := JVal.jnum (p000Qty body) }

/-- part_000 workflow branch: quantity from top-level fields, API-key
check, field validation, single-seat return, creation loop.  The branch
never inspects the event type or the replication marker. -/
def p000Workflow (apiKey : String) (oracle : Nat → CallResult) (body : JVal) :
    HttpResponse × List CreateReq :=
  let qty := p000Qty body
  if apiKey = "" then
    (⟨500, [("ok", JVal.jbool false), ("error", JVal.jstr "missing CAL_API_KEY")]⟩, [])
  else if !(jsTruthyO (p000EventTypeId body)) || !(jsTruthyO (p000Start body))
      || !(jsTruthyO (p000Email body)) then
    (⟨400, [("ok", JVal.jbool false),
      ("error", JVal.jstr "missing eventTypeId/start/email")]⟩, [])
  else
    let extra := qty - 1
    if extra ≤ 0 then
      (⟨200, [("ok", JVal.jbool true), ("info", JVal.jstr "single seat (workflow)"),
        ("qty", JVal.jnum qty)]⟩, [])
    else
      let r := runCreateLoop oracle (p000Req body) extra.toNat 0
      match r.2.2 with
      | some (st, txt) =>
        (⟨400, [("ok", JVal.jbool false), ("error", JVal.jstr "create failed"),
          ("status", JVal.jnum st), ("details", JVal.jstr txt)]⟩, r.1)
      | none =>
        (⟨200, [("ok", JVal.jbool true), ("mode", JVal.jstr "workflow"),
          ("qty", JVal.jnum qty), ("created", JVal.jnum (Int.ofNat r.2.1))]⟩, r.1)

/-- part_000 POST: authorization (signature or workflow token, otherwise
401), tolerant JSON parse (a throw is swallowed into an empty body), then
either the workflow branch or the signed-webhook branch that only logs
and skips. -/
def part000Post (hmac : String → String → String)
    (secret wfSecret apiKey raw : String) (sig wfParam : Option String)
    (parsed : Option JVal) (oracle : Nat → CallResult) :
    HttpResponse × List CreateReq :=
  let hasWf := p000HasWf wfParam wfSecret
  let isSigned := p000IsSigned hmac secret raw sig
  if !isSigned && !hasWf then
    (⟨401, [("ok", JVal.jbool false), ("error", JVal.jstr "unauthorized")]⟩, [])
  else
    let body := (parseBody raw parsed).getD (JVal.jobj [])
    if hasWf then p000Workflow apiKey oracle body
    else
      match normEvtM (evtRawOf body) with
      | none => (⟨500, [("ok", JVal.jbool false), ("error", JVal.jstr typeErrorMsg)]⟩, [])
      | some evt =>
        if !(strContains evt "booking.created") then
          (⟨200, [("ok", JVal.jbool true),
            ("skipped", JVal.jstr (if evt = "" then "unknown-event" else evt))]⟩, [])
        else
          (⟨200, [("ok", JVal.jbool true), ("mode", JVal.jstr "signed-webhook"),
            ("info", JVal.jstr "skipped; use workflow")]⟩, [])

/-
  Shared lemmas about the creation loop.
-/

theorem runCreateLoop_all_ok (oracle : Nat → CallResult) (req : CreateReq)
    (h : ∀ j, oracle j = CallResult.ok) :
    ∀ n i, runCreateLoop oracle req n i = (List.replicate n req, n, none) := by
  intro n
  induction n with
  | zero => intro i; simp [runCreateLoop, List.replicate]
  | succ m ih =>
    intro i
    simp [runCreateLoop, h i, ih (i + 1), List.replicate]

theorem runCreateLoop_second_fails (oracle : Nat → CallResult) (req : CreateReq)
    (st : Int) (txt : String) (k i : Nat) (h0 : oracle i = CallResult.ok)
    (h1 : oracle (i + 1) = CallResult.fail st txt) :
    runCreateLoop oracle req (k + 2) i = ([req, req], 1, some (st, txt)) := by
  simp only [runCreateLoop, h0, h1]

/-
  Pipeline reduction lemmas: an authenticated booking.created request
  reaches the payload-processing stage of each handler.
-/

theorem routeV1Post_reduce (hm : String → String → String)
    (secret apiKey raw : String) (sig : Option String) (parsed : Option JVal)
    (oracle : Nat → CallResult) (body : JVal)
    (h1 : verifySig hm secret raw sig = true)
    (h2 : parseBody raw parsed = some body)
    (h3 : strContains (lowerStr (jsToString (v1Evt body))) "booking.created" = true) :
    routeV1Post hm secret apiKey raw sig parsed oracle
      = routeV1Handle apiKey oracle (payloadOf body) := by
  simp [routeV1Post, h1, h2, h3]

theorem part001Post_reduce (hm : String → String → String)
    (secret apiKey raw : String) (sig : Option String) (parsed : Option JVal)
    (oracle : Nat → CallResult) (body : JVal) (evt : String)
    (h1 : verifySig hm secret raw sig = true)
    (h2 : parseBody raw parsed = some body)
    (h3 : normEvtM (evtRawOf body) = some evt)
    (h4 : strContains evt "booking.created" = true) :
    part001Post hm secret apiKey raw sig parsed oracle
      = part001Handle apiKey oracle (payloadOf body) := by
  simp [part001Post, h1, h2, h3, h4]

theorem part000Post_reduce_wf (hm : String → String → String)
    (secret wfSecret apiKey raw : String) (sig wfParam : Option String)
    (parsed : Option JVal) (oracle : Nat → CallResult)
    (h : p000HasWf wfParam wfSecret = true) :
    part000Post hm secret wfSecret apiKey raw sig wfParam parsed oracle
      = p000Workflow apiKey oracle ((parseBody raw parsed).getD (JVal.jobj [])) := by
  simp [part000Post, h]

theorem routeV1Handle_marker (apiKey : String) (oracle : Nat → CallResult)
    (b : JVal) (h : jsTruthyO (markerOf b) = true) :
    routeV1Handle apiKey oracle b
      = (⟨200, [("ok", JVal.jbool true), ("skipped", JVal.jstr "child booking")]⟩, []) := by
  simp [routeV1Handle, h]

theorem part001Handle_marker (apiKey : String) (oracle : Nat → CallResult)
    (b : JVal) (h : jsTruthyO (markerOf b) = true) :
    part001Handle apiKey oracle b
      = (⟨200, [("ok", JVal.jbool true), ("skipped", JVal.jstr "child booking")]⟩, []) := by
  simp [part001Handle, h]

/-
  C1.  The part_001 extractor always yields an integer in [1, 15] and
  defaults to 1 on an empty record; the route.js first-handler inline
  extraction (lines 48-55) lets NaN escape the clamp.
-/

/-- C1: for every booking record, extractQty (part_001) produces an
integer quantity with 1 ≤ qty ≤ 15, and an empty record defaults to 1;
however the route.js first handler computes
Math.max(1, Math.min(15, parseInt(qtyRaw || 1, 10))), and for the
non-numeric truthy seat-count value "abc" the parseInt yields NaN, which
both Math.min and Math.max propagate, so its qty is NaN (modelled none)
rather than an integer in [1, 15]. -/
theorem c1_extractQty_bounds_but_v1_nan_escapes :
    (∀ b : JVal, 1 ≤ extractQty b ∧ extractQty b ≤ 15)
    ∧ extractQty (JVal.jobj []) = 1
    ∧ routeV1Qty (JVal.jobj [("bookingFieldsResponses",
        JVal.jobj [("places", JVal.jstr "abc")])]) = none := by
  refine ⟨fun b => ?_, ?_, ?_⟩
  · unfold extractQty
    exact ⟨le_max_left _ _, max_le (by norm_num) (min_le_left _ _)⟩
  · simp [extractQty, jGet, jGetO, jsNC, jsIsNullish, jsTruthyO, jTruthy,
      isArr, p001Arrays, scanP001, toInt, jsParseInt, jsToString, intToStr,
      natToStr, natDigits, parseIntStr, parseDigits, List.find?]
  · simp [routeV1Qty, jGet, jGetO, jsNC, jsOr, jsTruthyO, jTruthy,
      jsParseInt, jsToString, parseIntStr, parseDigits, List.dropWhile,
      List.find?]

/-
  Replication lemmas: with every creation call succeeding and every
  required field present, each handler issues exactly extra = qty - 1
  identical creation calls.
-/

theorem routeV1Handle_replicates (apiKey : String) (oracle : Nat → CallResult)
    (b : JVal) (q : Int)
    (hmk : jsTruthyO (markerOf b) = false)
    (hq : routeV1Qty b = some q) (hgt : 1 < q)
    (hET : jsTruthyO (eventTypeIdOf b) = true)
    (hST : jsTruthyO (v1Start b) = true)
    (hEM : jsTruthyO (jGetO (v1Attendee b) "email") = true)
    (hKey : apiKey ≠ "")
    (hOk : ∀ j, oracle j = CallResult.ok) :
    routeV1Handle apiKey oracle b
      = (⟨200, [("ok", JVal.jbool true), ("created", JVal.jnum (q - 1)),
          ("qty", JVal.jnum q), ("extra", JVal.jnum (q - 1))]⟩,
        List.replicate (q - 1).toNat (v1Req b (some q))) := by
  have hext : extraNonPos (some (q - 1)) = false := by
    simp [extraNonPos]; omega
  have hloop := runCreateLoop_all_ok oracle (v1Req b (some q)) hOk (q.toNat - 1) 0
  have hofn : ((q.toNat - 1 : Nat) : Int) = q - 1 := by omega
  simp [routeV1Handle, hmk, hq, hext, hET, hST, hEM, hKey, extraIter, hloop,
    optIntJ, hofn]

theorem part001Handle_replicates (apiKey : String) (oracle : Nat → CallResult)
    (b : JVal) (q : Int)
    (hmk : jsTruthyO (markerOf b) = false)
    (hq : part001ResolvedQty b = q) (hgt : 1 < q)
    (hET : jsTruthyO (eventTypeIdOf b) = true)
    (hST : jsTruthyO (p001Start b) = true)
    (hEM : jsTruthyO (jGetO (p001Attendee b) "email") = true)
    (hKey : apiKey ≠ "")
    (hOk : ∀ j, oracle j = CallResult.ok) :
    part001Handle apiKey oracle b
      = (⟨200, [("ok", JVal.jbool true), ("qty", JVal.jnum q),
          ("extra", JVal.jnum (q - 1)), ("created", JVal.jnum (q - 1))]⟩,
        List.replicate (q - 1).toNat (p001Req b q)) := by
  have hext : ¬ (q - 1 ≤ 0) := by omega
  have hloop := runCreateLoop_all_ok oracle (p001Req b q) hOk (q.toNat - 1) 0
  have hofn : ((q.toNat - 1 : Nat) : Int) = q - 1 := by omega
  simp [part001Handle, hmk, hq, hext, hET, hST, hEM, hKey, hloop, hofn]

theorem p000Workflow_replicates (apiKey : String) (oracle : Nat → CallResult)
    (body : JVal) (q : Int)
    (hq : p000Qty body = q) (hgt : 1 < q)
    (hET : jsTruthyO (p000EventTypeId body) = true)
    (hST : jsTruthyO (p000Start body) = true)
    (hEM : jsTruthyO (p000Email body) = true)
    (hKey : apiKey ≠ "")
    (hOk : ∀ j, oracle j = CallResult.ok) :
    p000Workflow apiKey oracle body
      = (⟨200, [("ok", JVal.jbool true), ("mode", JVal.jstr "workflow"),
          ("qty", JVal.jnum q), ("created", JVal.jnum (q - 1))]⟩,
        List.replicate (q - 1).toNat (p000Req body)) := by
  have hext : ¬ (q - 1 ≤ 0) := by omega
  have hloop := runCreateLoop_all_ok oracle (p000Req body) hOk (q.toNat - 1) 0
  have hofn : ((q.toNat - 1 : Nat) : Int) = q - 1 := by omega
  simp [p000Workflow, hq, hext, hET, hST, hEM, hKey, hloop, hofn]

/-
  Concrete sample inputs shared by the witnesses.
-/

/-- Constant HMAC model used by the concrete witnesses. -/
def hmacConst : String → String → String := fun _ _ => "sig0"

/-- Provider oracle on which every creation call succeeds. -/
def oracleOk : Nat → CallResult := fun _ => CallResult.ok

/-- A child-booking webhook body: the payload metadata carries the
replication marker. -/
def c3Body : JVal :=
  JVal.jobj [("triggerEvent", JVal.jstr "booking.created"),
    ("payload", JVal.jobj [
      ("uid", JVal.jstr "child9"),
      ("metadata", JVal.jobj [("multiParentUid", JVal.jstr "parent1")]),
      ("bookingFieldsResponses", JVal.jobj [("places", JVal.jnum 4)])])]

/-
  C3.  A booking carrying the replication marker is skipped as a child
  booking by both signed-webhook handlers before any quantity extraction.
-/

/-- C3: for every authenticated booking.created request whose booking
payload metadata carries a truthy multiParentUid replication marker, both
the route.js first handler and part_001 short-circuit with the
"child booking" skip response and issue no outbound provider call; the
check precedes quantity extraction and replication. -/
theorem c3_marker_short_circuit (hm : String → String → String)
    (secret apiKey raw : String) (sig : Option String) (parsed : Option JVal)
    (oracle : Nat → CallResult) (body : JVal) (evt : String)
    (h1 : verifySig hm secret raw sig = true)
    (h2 : parseBody raw parsed = some body)
    (h3 : strContains (lowerStr (jsToString (v1Evt body))) "booking.created" = true)
    (h4 : normEvtM (evtRawOf body) = some evt)
    (h5 : strContains evt "booking.created" = true)
    (hmk : jsTruthyO (markerOf (payloadOf body)) = true) :
    routeV1Post hm secret apiKey raw sig parsed oracle
      = (⟨200, [("ok", JVal.jbool true), ("skipped", JVal.jstr "child booking")]⟩, [])
    ∧ part001Post hm secret apiKey raw sig parsed oracle
      = (⟨200, [("ok", JVal.jbool true), ("skipped", JVal.jstr "child booking")]⟩, []) := by
  constructor
  · rw [routeV1Post_reduce hm secret apiKey raw sig parsed oracle body h1 h2 h3]
    exact routeV1Handle_marker apiKey oracle _ hmk
  · rw [part001Post_reduce hm secret apiKey raw sig parsed oracle body evt h1 h2 h4 h5]
    exact part001Handle_marker apiKey oracle _ hmk

/-- C3 witness: the marker-carrying sample body is skipped by both
handlers with an empty outbound trace. -/
theorem c3_witness :
    routeV1Post hmacConst "sec" "key" "rawbody" (some "sig0") (some c3Body) oracleOk
      = (⟨200, [("ok", JVal.jbool true), ("skipped", JVal.jstr "child booking")]⟩, [])
    ∧ part001Post hmacConst "sec" "key" "rawbody" (some "sig0") (some c3Body) oracleOk
      = (⟨200, [("ok", JVal.jbool true), ("skipped", JVal.jstr "child booking")]⟩, []) := by
  refine c3_marker_short_circuit hmacConst "sec" "key" "rawbody" (some "sig0")
    (some c3Body) oracleOk c3Body "booking.created" ?_ ?_ ?_ ?_ ?_ ?_
  · decide
  · rfl
  · simp only [show v1Evt c3Body = JVal.jstr "booking.created" from rfl, jsToString]
    decide
  · rfl
  · decide
  · rfl

/-
  C2.  With every creation call succeeding, both signed-webhook handlers
  issue exactly qty - 1 creation calls carrying the original eventTypeId,
  start, attendee identity and the uid replication marker.
-/

/-- C2: for every authenticated, validated booking.created request whose
extracted quantity is q > 1 (on both extraction paths), with a present
uid and a provider accepting every call, the route.js first handler and
part_001 each issue exactly q - 1 sequential creation calls, every call
carrying the same eventTypeId and start as the original booking, the
original primary attendee identity, and metadata multiParentUid equal to
the original uid; in particular places = 4 yields exactly 3 calls. -/
theorem c2_replication_calls (hm : String → String → String)
    (secret apiKey raw : String) (sig : Option String) (parsed : Option JVal)
    (oracle : Nat → CallResult) (body : JVal) (evt : String) (q : Int) (u : String)
    (h1 : verifySig hm secret raw sig = true)
    (h2 : parseBody raw parsed = some body)
    (h3 : strContains (lowerStr (jsToString (v1Evt body))) "booking.created" = true)
    (h4 : normEvtM (evtRawOf body) = some evt)
    (h5 : strContains evt "booking.created" = true)
    (hmk : jsTruthyO (markerOf (payloadOf body)) = false)
    (hqa : routeV1Qty (payloadOf body) = some q)
    (hqb : part001ResolvedQty (payloadOf body) = q)
    (hgt : 1 < q)
    (hET : jsTruthyO (eventTypeIdOf (payloadOf body)) = true)
    (hS1 : jsTruthyO (v1Start (payloadOf body)) = true)
    (hS2 : jsTruthyO (p001Start (payloadOf body)) = true)
    (hE1 : jsTruthyO (jGetO (v1Attendee (payloadOf body)) "email") = true)
    (hE2 : jsTruthyO (jGetO (p001Attendee (payloadOf body)) "email") = true)
    (hKey : apiKey ≠ "")
    (hOk : ∀ j, oracle j = CallResult.ok)
    (hu : jGet (payloadOf body) "uid" = some (JVal.jstr u))
    (hut : u ≠ "") :
    routeV1Post hm secret apiKey raw sig parsed oracle
      = (⟨200, [("ok", JVal.jbool true), ("created", JVal.jnum (q - 1)),
          ("qty", JVal.jnum q), ("extra", JVal.jnum (q - 1))]⟩,
        List.replicate (q - 1).toNat
          { eventTypeId := eventTypeIdOf (payloadOf body)
            start := v1Start (payloadOf body)
            timeZone := jsOr (jGetO (v1Attendee (payloadOf body)) "timeZone")
              (some (JVal.jstr "Europe/Paris"))
            attName := jGetO (v1Attendee (payloadOf body)) "name"
            attEmail := jGetO (v1Attendee (payloadOf body)) "email"
            attTZ := jsOr (jGetO (v1Attendee (payloadOf body)) "timeZone")
              (some (JVal.jstr "Europe/Paris"))
            multiParentUid := some (JVal.jstr u)
            places := JVal.jnum q })
    ∧ part001Post hm secret apiKey raw sig parsed oracle
      = (⟨200, [("ok", JVal.jbool true), ("qty", JVal.jnum q),
          ("extra", JVal.jnum (q - 1)), ("created", JVal.jnum (q - 1))]⟩,
        List.replicate (q - 1).toNat
          { eventTypeId := eventTypeIdOf (payloadOf body)
            start := p001Start (payloadOf body)
            timeZone := jsOr (jGetO (p001Attendee (payloadOf body)) "timeZone")
              (some (JVal.jstr "Europe/Paris"))
            attName := jsOr (jGetO (p001Attendee (payloadOf body)) "name")
              (some (JVal.jstr "Invité"))
            attEmail := jGetO (p001Attendee (payloadOf body)) "email"
            attTZ := jsOr (jGetO (p001Attendee (payloadOf body)) "timeZone")
              (some (JVal.jstr "Europe/Paris"))
            multiParentUid := some (JVal.jstr u)
            places := JVal.jnum q }) := by
  have huT : jsTruthyO (jGet (payloadOf body) "uid") = true := by
    rw [hu]; simp [jsTruthyO, jTruthy, hut]
  constructor
  · rw [routeV1Post_reduce hm secret apiKey raw sig parsed oracle body h1 h2 h3,
      routeV1Handle_replicates apiKey oracle (payloadOf body) q hmk hqa hgt hET hS1 hE1 hKey hOk]
    have hreq : v1Req (payloadOf body) (some q)
        = { eventTypeId := eventTypeIdOf (payloadOf body)
            start := v1Start (payloadOf body)
            timeZone := jsOr (jGetO (v1Attendee (payloadOf body)) "timeZone")
              (some (JVal.jstr "Europe/Paris"))
            attName := jGetO (v1Attendee (payloadOf body)) "name"
            attEmail := jGetO (v1Attendee (payloadOf body)) "email"
            attTZ := jsOr (jGetO (v1Attendee (payloadOf body)) "timeZone")
              (some (JVal.jstr "Europe/Paris"))
            multiParentUid := some (JVal.jstr u)
            places := JVal.jnum q } := by
      simp [v1Req, optIntJ]
      rw [jsOr, if_pos huT, hu]
    rw [hreq]
  · rw [part001Post_reduce hm secret apiKey raw sig parsed oracle body evt h1 h2 h4 h5,
      part001Handle_replicates apiKey oracle (payloadOf body) q hmk hqb hgt hET hS2 hE2 hKey hOk]
    have hreq : p001Req (payloadOf body) q
        = { eventTypeId := eventTypeIdOf (payloadOf body)
            start := p001Start (payloadOf body)
            timeZone := jsOr (jGetO (p001Attendee (payloadOf body)) "timeZone")
              (some (JVal.jstr "Europe/Paris"))
            attName := jsOr (jGetO (p001Attendee (payloadOf body)) "name")
              (some (JVal.jstr "Invité"))
            attEmail := jGetO (p001Attendee (payloadOf body)) "email"
            attTZ := jsOr (jGetO (p001Attendee (payloadOf body)) "timeZone")
              (some (JVal.jstr "Europe/Paris"))
            multiParentUid := some (JVal.jstr u)
            places := JVal.jnum q } := by
      simp [p001Req]
      rw [jsOr, if_pos huT, hu]
    rw [hreq]

/-- A four-seat webhook body: payload with uid, eventTypeId, start, one
attendee and the custom-field response places = 4. -/
def c2Body : JVal :=
  JVal.jobj [("triggerEvent", JVal.jstr "booking.created"),
    ("payload", JVal.jobj [
      ("uid", JVal.jstr "u1"),
      ("eventTypeId", JVal.jnum 33),
      ("start", JVal.jstr "2025-11-20T09:00:00Z"),
      ("attendees", JVal.jarr [JVal.jobj [
        ("name", JVal.jstr "Alice"),
        ("email", JVal.jstr "alice@example.com"),
        ("timeZone", JVal.jstr "Europe/Paris")]]),
      ("bookingFieldsResponses", JVal.jobj [("places", JVal.jnum 4)])])]

/-- C2 witness: on the places = 4 sample booking both handlers issue
exactly 3 creation calls with the original slot and attendee and the uid
marker. -/
theorem c2_witness :
    routeV1Post hmacConst "sec" "key" "rawbody" (some "sig0") (some c2Body) oracleOk
      = (⟨200, [("ok", JVal.jbool true), ("created", JVal.jnum 3),
          ("qty", JVal.jnum 4), ("extra", JVal.jnum 3)]⟩,
        List.replicate 3
          { eventTypeId := eventTypeIdOf (payloadOf c2Body)
            start := v1Start (payloadOf c2Body)
            timeZone := jsOr (jGetO (v1Attendee (payloadOf c2Body)) "timeZone")
              (some (JVal.jstr "Europe/Paris"))
            attName := jGetO (v1Attendee (payloadOf c2Body)) "name"
            attEmail := jGetO (v1Attendee (payloadOf c2Body)) "email"
            attTZ := jsOr (jGetO (v1Attendee (payloadOf c2Body)) "timeZone")
              (some (JVal.jstr "Europe/Paris"))
            multiParentUid := some (JVal.jstr "u1")
            places := JVal.jnum 4 })
    ∧ part001Post hmacConst "sec" "key" "rawbody" (some "sig0") (some c2Body) oracleOk
      = (⟨200, [("ok", JVal.jbool true), ("qty", JVal.jnum 4),
          ("extra", JVal.jnum 3), ("created", JVal.jnum 3)]⟩,
        List.replicate 3
          { eventTypeId := eventTypeIdOf (payloadOf c2Body)
            start := p001Start (payloadOf c2Body)
            timeZone := jsOr (jGetO (p001Attendee (payloadOf c2Body)) "timeZone")
              (some (JVal.jstr "Europe/Paris"))
            attName := jsOr (jGetO (p001Attendee (payloadOf c2Body)) "name")
              (some (JVal.jstr "Invité"))
            attEmail := jGetO (p001Attendee (payloadOf c2Body)) "email"
            attTZ := jsOr (jGetO (p001Attendee (payloadOf c2Body)) "timeZone")
              (some (JVal.jstr "Europe/Paris"))
            multiParentUid := some (JVal.jstr "u1")
            places := JVal.jnum 4 }) := by
  exact c2_replication_calls hmacConst "sec" "key" "rawbody" (some "sig0")
    (some c2Body) oracleOk c2Body "booking.created" 4 "u1"
    (by decide)
    rfl
    (by simp only [show v1Evt c2Body = JVal.jstr "booking.created" from rfl, jsToString]
        decide)
    rfl
    (by decide)
    rfl
    (by simp [routeV1Qty, payloadOf, c2Body, jGet, jGetO, jsNC, jsOr, jsTruthyO,
      jTruthy, jsParseInt, jsToString, intToStr, natToStr, natDigits,
      parseIntStr, parseDigits, List.dropWhile, List.find?])
    (by simp [part001ResolvedQty, extractQty, payloadOf, c2Body, jGet, jGetO,
      jsNC, jsOr, jsIsNullish, jsTruthyO, jTruthy, isArr, p001Arrays, scanP001,
      toInt, jsParseInt, jsToString, intToStr, natToStr, natDigits,
      parseIntStr, parseDigits, List.dropWhile, List.find?])
    (by decide)
    (by decide)
    (by decide)
    (by decide)
    (by decide)
    (by decide)
    (by decide)
    (fun j => rfl)
    rfl
    (by decide)

/-
  C4.  part_000 authorization: signature valid or workflow token valid,
  otherwise 401 with no outbound call.
-/

/-- C4: with a configured webhook secret and workflow token (and digests
nonempty, as hex HMAC digests are), a part_000 POST request is authorized
if and only if its signature header equals the HMAC digest of the raw
body or its wftoken query parameter equals the pre-shared workflow token;
when neither holds the response is 401 unauthorized and no outbound
provider call and no further processing occurs. -/
theorem c4_authorization_iff (hm : String → String → String)
    (secret wfSecret apiKey raw : String) (sig wfParam : Option String)
    (parsed : Option JVal) (oracle : Nat → CallResult)
    (hs : secret ≠ "") (hw : wfSecret ≠ "") (hd : hm secret raw ≠ "") :
    (part000Auth hm secret wfSecret raw sig wfParam = true
      ↔ (sig = some (hm secret raw) ∨ wfParam = some wfSecret))
    ∧ (part000Auth hm secret wfSecret raw sig wfParam = false →
      part000Post hm secret wfSecret apiKey raw sig wfParam parsed oracle
        = (⟨401, [("ok", JVal.jbool false), ("error", JVal.jstr "unauthorized")]⟩, [])) := by
  constructor
  · cases sig <;> cases wfParam <;>
      simp [part000Auth, p000IsSigned, p000HasWf, verifySig, hs, hw] <;>
      aesop
  · intro hAuth
    have h12 : p000IsSigned hm secret raw sig = false
        ∧ p000HasWf wfParam wfSecret = false := by
      simpa [part000Auth, Bool.or_eq_false_iff] using hAuth
    simp [part000Post, h12.1, h12.2]

/-- C4 witness: with neither a signature nor a token, the instantiated
characterization holds and the request is rejected with 401 and an empty
outbound trace. -/
theorem c4_witness :
    (part000Auth hmacConst "sec" "tok" "r" none none = true
      ↔ ((none : Option String) = some (hmacConst "sec" "r")
         ∨ (none : Option String) = some "tok"))
    ∧ (part000Auth hmacConst "sec" "tok" "r" none none = false →
      part000Post hmacConst "sec" "tok" "key" "r" none none none oracleOk
        = (⟨401, [("ok", JVal.jbool false), ("error", JVal.jstr "unauthorized")]⟩, [])) := by
  exact c4_authorization_iff hmacConst "sec" "tok" "key" "r" none none none oracleOk
    (by decide) (by decide) (by decide)

/-
  C5.  A failing creation call stops the loop with no further call and a
  400 reporting the provider status and body; the failure response does
  not include the count of bookings already created.
-/

/-- Provider oracle whose first call succeeds and whose second call fails
with status 500 and a diagnostic body. -/
def oracleFail2 : Nat → CallResult :=
  fun i => if i = 0 then CallResult.ok else CallResult.fail 500 "capacity exceeded"

/-- C5 counterexample: on the places = 4 sample booking with the second
creation call failing, part_001 answers 400 with the provider status and
diagnostic text, the outbound trace has exactly 2 calls (the third is
never attempted), but the failure response carries no "created" field, so
it does not report the count of bookings actually created (1), contrary
to the claim. -/
theorem c5_counterexample :
    (part001Post hmacConst "sec" "key" "rawbody" (some "sig0") (some c2Body) oracleFail2).1
      = ⟨400, [("ok", JVal.jbool false), ("error", JVal.jstr "create failed"),
          ("status", JVal.jnum 500), ("details", JVal.jstr "capacity exceeded")]⟩
    ∧ ((part001Post hmacConst "sec" "key" "rawbody" (some "sig0") (some c2Body) oracleFail2).1.body.find?
        (fun p => p.1 == "created")) = none
    ∧ (part001Post hmacConst "sec" "key" "rawbody" (some "sig0") (some c2Body) oracleFail2).2.length = 2 := by
  have hred := part001Post_reduce hmacConst "sec" "key" "rawbody" (some "sig0")
    (some c2Body) oracleFail2 c2Body "booking.created" (by decide) rfl rfl (by decide)
  have hq : part001ResolvedQty (payloadOf c2Body) = 4 := by
    simp [part001ResolvedQty, extractQty, payloadOf, c2Body, jGet, jGetO,
      jsNC, jsOr, jsIsNullish, jsTruthyO, jTruthy, isArr, p001Arrays, scanP001,
      toInt, jsParseInt, jsToString, intToStr, natToStr, natDigits,
      parseIntStr, parseDigits, List.dropWhile, List.find?]
  have hmk : jsTruthyO (markerOf (payloadOf c2Body)) = false := by decide
  have hET : jsTruthyO (eventTypeIdOf (payloadOf c2Body)) = true := by decide
  have hST : jsTruthyO (p001Start (payloadOf c2Body)) = true := by decide
  have hEM : jsTruthyO (jGetO (p001Attendee (payloadOf c2Body)) "email") = true := by decide
  have hKey : ("key" : String) ≠ "" := by decide
  have hloop : runCreateLoop oracleFail2 (p001Req (payloadOf c2Body) 4) 3 0
      = ([p001Req (payloadOf c2Body) 4, p001Req (payloadOf c2Body) 4],
         1, some (500, "capacity exceeded")) :=
    runCreateLoop_second_fails oracleFail2 _ 500 "capacity exceeded" 1 0 rfl rfl
  have hmain : part001Post hmacConst "sec" "key" "rawbody" (some "sig0") (some c2Body) oracleFail2
      = (⟨400, [("ok", JVal.jbool false), ("error", JVal.jstr "create failed"),
          ("status", JVal.jnum 500), ("details", JVal.jstr "capacity exceeded")]⟩,
        [p001Req (payloadOf c2Body) 4, p001Req (payloadOf c2Body) 4]) := by
    rw [hred]
    simp [part001Handle, hmk, hq, hET, hST, hEM, hKey, hloop]
  exact ⟨by rw [hmain], by rw [hmain]; simp [List.find?], by rw [hmain]; rfl⟩

/-- C5 (amended): for every authenticated, validated part_001 request
resolving to qty = 4 (three planned calls) whose first creation call
succeeds and whose second fails, exactly two calls are sent (no third
attempt, and the first created sibling is not rolled back - the model has
no deletion calls at all), and the 400 response reports the provider
status and diagnostic body but carries no field with the count of
bookings actually created. -/
theorem c5_partial_failure_stops (hm : String → String → String)
    (secret apiKey raw : String) (sig : Option String) (parsed : Option JVal)
    (oracle : Nat → CallResult) (body : JVal) (evt : String) (st : Int) (txt : String)
    (h1 : verifySig hm secret raw sig = true)
    (h2 : parseBody raw parsed = some body)
    (h4 : normEvtM (evtRawOf body) = some evt)
    (h5 : strContains evt "booking.created" = true)
    (hmk : jsTruthyO (markerOf (payloadOf body)) = false)
    (hq : part001ResolvedQty (payloadOf body) = 4)
    (hET : jsTruthyO (eventTypeIdOf (payloadOf body)) = true)
    (hST : jsTruthyO (p001Start (payloadOf body)) = true)
    (hEM : jsTruthyO (jGetO (p001Attendee (payloadOf body)) "email") = true)
    (hKey : apiKey ≠ "")
    (o0 : oracle 0 = CallResult.ok)
    (o1 : oracle 1 = CallResult.fail st txt) :
    part001Post hm secret apiKey raw sig parsed oracle
      = (⟨400, [("ok", JVal.jbool false), ("error", JVal.jstr "create failed"),
          ("status", JVal.jnum st), ("details", JVal.jstr txt)]⟩,
        [p001Req (payloadOf body) 4, p001Req (payloadOf body) 4])
    ∧ ((part001Post hm secret apiKey raw sig parsed oracle).1.body.find?
        (fun p => p.1 == "created")) = none := by
  have hloop : runCreateLoop oracle (p001Req (payloadOf body) 4) 3 0
      = ([p001Req (payloadOf body) 4, p001Req (payloadOf body) 4],
         1, some (st, txt)) :=
    runCreateLoop_second_fails oracle _ st txt 1 0 o0 o1
  have hmain : part001Post hm secret apiKey raw sig parsed oracle
      = (⟨400, [("ok", JVal.jbool false), ("error", JVal.jstr "create failed"),
          ("status", JVal.jnum st), ("details", JVal.jstr txt)]⟩,
        [p001Req (payloadOf body) 4, p001Req (payloadOf body) 4]) := by
    rw [part001Post_reduce hm secret apiKey raw sig parsed oracle body evt h1 h2 h4 h5]
    simp [part001Handle, hmk, hq, hET, hST, hEM, hKey, hloop]
  refine ⟨hmain, ?_⟩
  rw [hmain]
  simp [List.find?]

/-- C5 witness: the amended statement instantiated on the places = 4
sample booking with the second creation call failing. -/
theorem c5_witness :
    part001Post hmacConst "sec" "key" "rawbody" (some "sig0") (some c2Body) oracleFail2
      = (⟨400, [("ok", JVal.jbool false), ("error", JVal.jstr "create failed"),
          ("status", JVal.jnum 500), ("details", JVal.jstr "capacity exceeded")]⟩,
        [p001Req (payloadOf c2Body) 4, p001Req (payloadOf c2Body) 4])
    ∧ ((part001Post hmacConst "sec" "key" "rawbody" (some "sig0") (some c2Body) oracleFail2).1.body.find?
        (fun p => p.1 == "created")) = none := by
  exact c5_partial_failure_stops hmacConst "sec" "key" "rawbody" (some "sig0")
    (some c2Body) oracleFail2 c2Body "booking.created" 500 "capacity exceeded"
    (by decide) rfl rfl (by decide) (by decide)
    (by simp [part001ResolvedQty, extractQty, payloadOf, c2Body, jGet, jGetO,
      jsNC, jsOr, jsIsNullish, jsTruthyO, jTruthy, isArr, p001Arrays, scanP001,
      toInt, jsParseInt, jsToString, intToStr, natToStr, natDigits,
      parseIntStr, parseDigits, List.dropWhile, List.find?])
    (by decide) (by decide) (by decide) (by decide) rfl rfl

/-
  C6.  Only part_000 swallows a JSON parse failure into an empty payload;
  part_001 (and route.js) let the exception reach the outer catch and
  answer 500.
-/

/-- C6 counterexample: a malformed JSON body ("not json", parse outcome a thrown
SyntaxError) with a valid signature makes part_001 answer a 500 internal
error from its outer catch, rather than treating the body as an empty
payload and continuing to validation as the claim states. -/
theorem c6_counterexample :
    part001Post hmacConst "sec" "key" "not json" (some "sig0") none oracleOk
      = (⟨500, [("ok", JVal.jbool false), ("error", JVal.jstr parseErrorMsg)]⟩, []) := by
  rfl

/-- C6 (amended): part_000 treats a malformed JSON body as an empty
payload and continues to the downstream validation steps (the workflow
branch then rejects with 400 missing eventTypeId/start/email, not a hard
internal error) with no outbound call; part_001, by contrast, lets the
parse exception reach its outer catch and answers a 500 internal error. -/
theorem c6_parse_failure_behaviour (hm : String → String → String)
    (secret wfSecret apiKey raw : String) (sig wfParam : Option String)
    (oracle : Nat → CallResult)
    (hwf : p000HasWf wfParam wfSecret = true)
    (hraw : raw ≠ "") (hKey : apiKey ≠ "") :
    part000Post hm secret wfSecret apiKey raw sig wfParam none oracle
      = (⟨400, [("ok", JVal.jbool false),
          ("error", JVal.jstr "missing eventTypeId/start/email")]⟩, [])
    ∧ (verifySig hm secret raw sig = true →
      part001Post hm secret apiKey raw sig none oracle
        = (⟨500, [("ok", JVal.jbool false), ("error", JVal.jstr parseErrorMsg)]⟩, [])) := by
  constructor
  · rw [part000Post_reduce_wf hm secret wfSecret apiKey raw sig wfParam none oracle hwf]
    have hb : (parseBody raw none).getD (JVal.jobj []) = JVal.jobj [] := by
      simp [parseBody, hraw]
    rw [hb]
    simp [p000Workflow, hKey, p000Qty, clampQty, p000EventTypeId, p000Start,
      p000Email, p000AttendeeVal, jGet, jGetO, jsNC, jsOr, jsTruthyO, jTruthy,
      jsParseInt, jsToString, intToStr, natToStr, natDigits, parseIntStr,
      parseDigits, List.dropWhile]
  · intro hver
    simp [part001Post, hver, parseBody, hraw]

/-- C6 witness: the amended statement instantiated at the malformed body
"not json" with a valid workflow token for part_000 and a valid signature for
part_001. -/
theorem c6_witness :
    part000Post hmacConst "sec" "tok" "key" "not json" (some "sig0") (some "tok") none oracleOk
      = (⟨400, [("ok", JVal.jbool false),
          ("error", JVal.jstr "missing eventTypeId/start/email")]⟩, [])
    ∧ (verifySig hmacConst "sec" "not json" (some "sig0") = true →
      part001Post hmacConst "sec" "key" "not json" (some "sig0") none oracleOk
        = (⟨500, [("ok", JVal.jbool false), ("error", JVal.jstr parseErrorMsg)]⟩, [])) := by
  exact c6_parse_failure_behaviour hmacConst "sec" "tok" "key" "not json" (some "sig0")
    (some "tok") oracleOk (by decide) (by decide) (by decide)

/-
  C7.  part_001 invokes the deep traversal when the direct searches find
  nothing and extracts the nested participant count; in the route.js
  second handler the deep traversal is dead code behind a nullish
  coalescing whose left operand is never nullish.
-/

/-- The nested-field booking record of the claim:
{ details: { participant_count: 7 } }. -/
def c7Detail : JVal :=
  JVal.jobj [("details", JVal.jobj [("participant_count", JVal.jnum 7)])]

/-- C7: on a record whose direct custom-field lookup and form-answer
array scan find nothing, part_001 invokes deepFindQty and resolves the
nested participant_count 7; but in the route.js second handler the
expression extractQtyFromBooking(detail) ?? deepFindQty(detail) never
evaluates deepFindQty, because extractQtyFromBooking always returns a
number - proved here for every detail - so on the same record the
refinement keeps qty = 1 instead of 7. -/
theorem c7_deep_fallback_p001_but_dead_in_v2 :
    extractQty c7Detail = 1
    ∧ deepFindQty c7Detail = some 7
    ∧ part001ResolvedQty c7Detail = 7
    ∧ (∀ detail : JVal,
        v2FromDetail detail = some (JVal.jnum (extractQtyFromBooking detail)))
    ∧ extractQtyFromBooking c7Detail = 1
    ∧ v2RefineQty 1 c7Detail = 1 := by
  have he : extractQty c7Detail = 1 := by
    simp [extractQty, c7Detail, jGet, jGetO, jsNC, jsOr, jsIsNullish,
      jsTruthyO, jTruthy, isArr, p001Arrays, scanP001, toInt, jsParseInt,
      jsToString, intToStr, natToStr, natDigits, parseIntStr, parseDigits,
      List.dropWhile, List.find?]
  have hd : deepFindQty c7Detail = some 7 := by
    simp [deepFindQty, c7Detail, deepLoop, objScan, isLeafType, deepKeyMatch,
      strContains, lowerStr, charsHaveSub, charsStartWith, jsParseInt,
      jsToString, intToStr, natToStr, natDigits, parseIntStr, parseDigits,
      List.dropWhile]
    rfl
  have hv2 : extractQtyFromBooking c7Detail = 1 := by
    simp [extractQtyFromBooking, c7Detail, jGet, jGetO, jsNC, jsOr,
      jsIsNullish, jsTruthyO, jTruthy, isArr, v2Arrays, scanV2, jsIndex0,
      toInt, jsParseInt, jsToString, intToStr, natToStr, natDigits,
      parseIntStr, parseDigits, List.dropWhile, List.find?]
  refine ⟨he, hd, ?_, ?_, hv2, ?_⟩
  · simp [part001ResolvedQty, he, hd]
  · intro detail
    simp [v2FromDetail, jsNC]
  · simp [v2RefineQty, v2FromDetail, jsNC, hv2, jsTruthyO, jTruthy, jsGTone]

/-
  C8.  route.js first handler returns the single-seat success before any
  field validation; part_001 validates the API key and the replication
  fields first, so a single-seat booking lacking them is rejected, though
  still with zero creation calls.
-/

/-- A single-seat webhook body whose payload lacks eventTypeId, start and
attendees. -/
def c8Body : JVal :=
  JVal.jobj [("triggerEvent", JVal.jstr "booking.created"),
    ("payload", JVal.jobj [("uid", JVal.jstr "u2")])]

/-- C8 counterexample: an authenticated, non-skipped part_001 request
resolving to qty = 1 whose payload lacks eventTypeId and start is
answered with the 400 missing-data validation failure, not with the
single-seat success the claim promises for every such request. -/
theorem c8_counterexample :
    part001Post hmacConst "sec" "key" "rawbody" (some "sig0") (some c8Body) oracleOk
      = (⟨400, [("ok", JVal.jbool false),
          ("error", JVal.jstr "missing eventTypeId/start/attendee")]⟩, []) := by
  have hred := part001Post_reduce hmacConst "sec" "key" "rawbody" (some "sig0")
    (some c8Body) oracleOk c8Body "booking.created" (by decide) rfl rfl (by decide)
  have hq : part001ResolvedQty (payloadOf c8Body) = 1 := by
    have he : extractQty (payloadOf c8Body) = 1 := by
      simp [extractQty, payloadOf, c8Body, jGet, jGetO, jsNC, jsOr,
        jsIsNullish, jsTruthyO, jTruthy, isArr, p001Arrays, scanP001, toInt,
        jsParseInt, jsToString, intToStr, natToStr, natDigits, parseIntStr,
        parseDigits, List.dropWhile, List.find?]
    have hd : deepFindQty (payloadOf c8Body) = none := by
      simp [deepFindQty, payloadOf, c8Body, jGet, jGetO, jsNC, jsOr,
        jsTruthyO, jTruthy, deepLoop, objScan, isLeafType, deepKeyMatch,
        strContains, lowerStr, charsHaveSub, charsStartWith, jsParseInt,
        jsToString, intToStr, natToStr, natDigits, parseIntStr, parseDigits,
        List.dropWhile, List.find?]
    simp [part001ResolvedQty, he, hd]
  have hmk : jsTruthyO (markerOf (payloadOf c8Body)) = false := by decide
  have hET : jsTruthyO (eventTypeIdOf (payloadOf c8Body)) = false := by decide
  have hKey : ("key" : String) ≠ "" := by decide
  rw [hred]
  simp [part001Handle, hmk, hq, hET, hKey]

/-- C8 (amended): with extra <= 0 both handlers issue zero creation
calls; the route.js first handler returns the single-seat success before
any replication-field or API-key validation, while part_001 checks the
API key and the replication fields first - a single-seat request lacking
them gets a 500/400 failure - and returns the single-seat success only
when they are present. -/
theorem c8_single_seat_order (hm : String → String → String)
    (secret apiKey raw : String) (sig : Option String) (parsed : Option JVal)
    (oracle : Nat → CallResult) (body : JVal)
    (h1 : verifySig hm secret raw sig = true)
    (h2 : parseBody raw parsed = some body) :
    (strContains (lowerStr (jsToString (v1Evt body))) "booking.created" = true →
     jsTruthyO (markerOf (payloadOf body)) = false →
     routeV1Qty (payloadOf body) = some 1 →
     routeV1Post hm secret apiKey raw sig parsed oracle
       = (⟨200, [("ok", JVal.jbool true), ("info", JVal.jstr "single seat")]⟩, []))
    ∧ (∀ evt : String, normEvtM (evtRawOf body) = some evt →
       strContains evt "booking.created" = true →
       jsTruthyO (markerOf (payloadOf body)) = false →
       part001ResolvedQty (payloadOf body) = 1 →
       (part001Post hm secret apiKey raw sig parsed oracle).2 = []
       ∧ (apiKey ≠ "" →
          jsTruthyO (eventTypeIdOf (payloadOf body)) = true →
          jsTruthyO (p001Start (payloadOf body)) = true →
          jsTruthyO (jGetO (p001Attendee (payloadOf body)) "email") = true →
          part001Post hm secret apiKey raw sig parsed oracle
            = (⟨200, [("ok", JVal.jbool true), ("info", JVal.jstr "single seat"),
                ("qty", JVal.jnum 1)]⟩, []))) := by
  constructor
  · intro h3 hmk hq
    rw [routeV1Post_reduce hm secret apiKey raw sig parsed oracle body h1 h2 h3]
    simp [routeV1Handle, hmk, hq, extraNonPos]
  · intro evt h4 h5 hmk hq
    rw [part001Post_reduce hm secret apiKey raw sig parsed oracle body evt h1 h2 h4 h5]
    constructor
    · simp only [part001Handle, hmk, hq]
      split
      · rfl
      · split
        · rfl
        · split
          · rfl
          · split
            · rfl
            · omega
    · intro hKey hET hST hEM
      simp [part001Handle, hmk, hq, hKey, hET, hST, hEM]

/-- A single-seat webhook body with an empty payload. -/
def c8WBody : JVal :=
  JVal.jobj [("triggerEvent", JVal.jstr "booking.created"),
    ("payload", JVal.jobj [])]

/-- C8 witness: on the empty-payload single-seat booking, the route.js
first handler returns the single-seat success with no outbound call even
with no API key configured, and part_001 issues no outbound call
either. -/
theorem c8_witness :
    routeV1Post hmacConst "sec" "" "rawbody" (some "sig0") (some c8WBody) oracleOk
      = (⟨200, [("ok", JVal.jbool true), ("info", JVal.jstr "single seat")]⟩, [])
    ∧ (part001Post hmacConst "sec" "key" "rawbody" (some "sig0") (some c8WBody) oracleOk).2 = [] := by
  have hq1 : routeV1Qty (payloadOf c8WBody) = some 1 := by
    simp [routeV1Qty, payloadOf, c8WBody, jGet, jGetO, jsNC, jsOr, jsTruthyO,
      jTruthy, jsParseInt, jsToString, intToStr, natToStr, natDigits,
      parseIntStr, parseDigits, List.dropWhile, List.find?]
  have hq2 : part001ResolvedQty (payloadOf c8WBody) = 1 := by
    have he : extractQty (payloadOf c8WBody) = 1 := by
      simp [extractQty, payloadOf, c8WBody, jGet, jGetO, jsNC, jsOr,
        jsIsNullish, jsTruthyO, jTruthy, isArr, p001Arrays, scanP001, toInt,
        jsParseInt, jsToString, intToStr, natToStr, natDigits, parseIntStr,
        parseDigits, List.dropWhile, List.find?]
    have hd : deepFindQty (payloadOf c8WBody) = none := by
      simp [deepFindQty, payloadOf, c8WBody, jGet, jsOr, jsTruthyO, jTruthy,
        deepLoop, objScan]
    simp [part001ResolvedQty, he, hd]
  constructor
  · exact (c8_single_seat_order hmacConst "sec" "" "rawbody" (some "sig0")
      (some c8WBody) oracleOk c8WBody (by decide) rfl).1
      (by simp only [show v1Evt c8WBody = JVal.jstr "booking.created" from rfl, jsToString]
          decide)
      (by decide) hq1
  · exact ((c8_single_seat_order hmacConst "sec" "key" "rawbody" (some "sig0")
      (some c8WBody) oracleOk c8WBody (by decide) rfl).2
      "booking.created" rfl (by decide) (by decide) hq2).1

/-
  C9.  The part_000 workflow path replicates from top-level body fields
  without any event-type filtering or replication-marker check; a payload
  carrying the marker is still replicated.
-/

/-- C9: for every request authorized via the workflow token, part_000
replicates driven solely by the top-level fields read by the workflow
branch (qty/places/count, eventTypeId, start, attendee email, uid): no
hypothesis whatsoever is made on the body triggerEvent or metadata, so a
payload carrying the multiParentUid replication marker, or a non-booking
event type, is still replicated with exactly qty - 1 creation calls. -/
theorem c9_workflow_no_marker_check (hm : String → String → String)
    (secret wfSecret apiKey raw : String) (sig wfParam : Option String)
    (parsed : Option JVal) (oracle : Nat → CallResult) (body : JVal) (q : Int)
    (hwf : p000HasWf wfParam wfSecret = true)
    (hbody : (parseBody raw parsed).getD (JVal.jobj []) = body)
    (hq : p000Qty body = q) (hgt : 1 < q)
    (hET : jsTruthyO (p000EventTypeId body) = true)
    (hST : jsTruthyO (p000Start body) = true)
    (hEM : jsTruthyO (p000Email body) = true)
    (hKey : apiKey ≠ "")
    (hOk : ∀ j, oracle j = CallResult.ok) :
    part000Post hm secret wfSecret apiKey raw sig wfParam parsed oracle
      = (⟨200, [("ok", JVal.jbool true), ("mode", JVal.jstr "workflow"),
          ("qty", JVal.jnum q), ("created", JVal.jnum (q - 1))]⟩,
        List.replicate (q - 1).toNat (p000Req body)) := by
  rw [part000Post_reduce_wf hm secret wfSecret apiKey raw sig wfParam parsed oracle hwf,
    hbody]
  exact p000Workflow_replicates apiKey oracle body q hq hgt hET hST hEM hKey hOk

/-- A workflow-call body that carries the replication marker and a
non-booking event type, yet requests three seats. -/
def c9Body : JVal :=
  JVal.jobj [("triggerEvent", JVal.jstr "booking.cancelled"),
    ("metadata", JVal.jobj [("multiParentUid", JVal.jstr "parent1")]),
    ("qty", JVal.jnum 3),
    ("eventTypeId", JVal.jnum 33),
    ("start", JVal.jstr "2025-11-20T09:00:00Z"),
    ("uid", JVal.jstr "u9"),
    ("attendee", JVal.jobj [("email", JVal.jstr "bob@example.com")])]

/-- C9 witness: the marker-carrying, non-booking-event workflow payload
is still replicated with 2 creation calls on the token path (here with no
webhook secret configured at all). -/
theorem c9_witness :
    part000Post hmacConst "" "tok" "key" "raw9" none (some "tok") (some c9Body) oracleOk
      = (⟨200, [("ok", JVal.jbool true), ("mode", JVal.jstr "workflow"),
          ("qty", JVal.jnum 3), ("created", JVal.jnum 2)]⟩,
        List.replicate 2 (p000Req c9Body)) := by
  exact c9_workflow_no_marker_check hmacConst "" "tok" "key" "raw9" none
    (some "tok") (some c9Body) oracleOk c9Body 3
    (by decide) rfl
    (by simp [p000Qty, clampQty, c9Body, jGet, jGetO, jsNC, jsParseInt,
      jsToString, intToStr, natToStr, natDigits, parseIntStr, parseDigits,
      List.dropWhile, List.find?])
    (by decide) (by decide) (by decide) (by decide) (by decide)
    (fun j => rfl)

/-
  C10.  A booking with neither a non-empty attendees array entry nor an
  attendee object gets the default attendee, so the email validation
  succeeds and replicated bookings carry the placeholder identity.
-/

/-- C10: for every booking payload whose attendees field is absent, null
or an empty array and whose attendee field is absent or null, both
route.js (first handler) and part_001 substitute the default attendee
{ name: "Invité", email: "no-reply@cosette.fr", timeZone: "Europe/Paris" };
the attendee-email validation therefore succeeds, and when replication
runs, every creation call of part_001 carries exactly this placeholder
identity. -/
theorem c10_default_attendee_substitution (hm : String → String → String)
    (secret apiKey raw : String) (sig : Option String) (parsed : Option JVal)
    (oracle : Nat → CallResult) (body : JVal) (evt : String) (q : Int)
    (h1 : verifySig hm secret raw sig = true)
    (h2 : parseBody raw parsed = some body)
    (h4 : normEvtM (evtRawOf body) = some evt)
    (h5 : strContains evt "booking.created" = true)
    (hmk : jsTruthyO (markerOf (payloadOf body)) = false)
    (hq : part001ResolvedQty (payloadOf body) = q) (hgt : 1 < q)
    (hET : jsTruthyO (eventTypeIdOf (payloadOf body)) = true)
    (hST : jsTruthyO (p001Start (payloadOf body)) = true)
    (hKey : apiKey ≠ "")
    (hOk : ∀ j, oracle j = CallResult.ok)
    (hA : jGet (payloadOf body) "attendees" = none
        ∨ jGet (payloadOf body) "attendees" = some JVal.jnull
        ∨ jGet (payloadOf body) "attendees" = some (JVal.jarr []))
    (hB : jGet (payloadOf body) "attendee" = none
        ∨ jGet (payloadOf body) "attendee" = some JVal.jnull) :
    v1Attendee (payloadOf body) = some defaultAttendee
    ∧ p001Attendee (payloadOf body) = some defaultAttendee
    ∧ jsTruthyO (jGetO (p001Attendee (payloadOf body)) "email") = true
    ∧ (part001Post hm secret apiKey raw sig parsed oracle).2
        = List.replicate (q - 1).toNat (p001Req (payloadOf body) q)
    ∧ (p001Req (payloadOf body) q).attName = some (JVal.jstr "Invité")
    ∧ (p001Req (payloadOf body) q).attEmail = some (JVal.jstr "no-reply@cosette.fr")
    ∧ (p001Req (payloadOf body) q).attTZ = some (JVal.jstr "Europe/Paris") := by
  have hv1 : v1Attendee (payloadOf body) = some defaultAttendee := by
    rcases hA with h | h | h <;> rcases hB with h' | h' <;>
      simp [v1Attendee, jsAnd, jsOr, jsIndex0, jsTruthyO, jTruthy, h, h']
  have hp1 : p001Attendee (payloadOf body) = some defaultAttendee := by
    rcases hA with h | h | h <;> rcases hB with h' | h' <;>
      simp [p001Attendee, jsAnd, jsOr, jsIndex0, isArr, jsTruthyO, jTruthy, h, h']
  have hEM : jsTruthyO (jGetO (p001Attendee (payloadOf body)) "email") = true := by
    rw [hp1]; decide
  have hfields : (p001Req (payloadOf body) q).attName = some (JVal.jstr "Invité")
      ∧ (p001Req (payloadOf body) q).attEmail = some (JVal.jstr "no-reply@cosette.fr")
      ∧ (p001Req (payloadOf body) q).attTZ = some (JVal.jstr "Europe/Paris") := by
    refine ⟨?_, ?_, ?_⟩ <;>
      simp [p001Req, hp1, jGetO, jGet, defaultAttendee, jsOr, jsTruthyO, jTruthy,
        List.find?]
  refine ⟨hv1, hp1, hEM, ?_, hfields.1, hfields.2.1, hfields.2.2⟩
  rw [part001Post_reduce hm secret apiKey raw sig parsed oracle body evt h1 h2 h4 h5,
    part001Handle_replicates apiKey oracle (payloadOf body) q hmk hq hgt hET hST hEM hKey hOk]

/-- A two-seat webhook body whose payload has no attendees array and no
attendee object. -/
def c10Body : JVal :=
  JVal.jobj [("triggerEvent", JVal.jstr "booking.created"),
    ("payload", JVal.jobj [
      ("uid", JVal.jstr "u3"),
      ("eventTypeId", JVal.jnum 44),
      ("start", JVal.jstr "2025-12-01T10:00:00Z"),
      ("bookingFieldsResponses", JVal.jobj [("places", JVal.jnum 2)])])]

/-- C10 witness: on the attendee-less two-seat booking both attendee
resolutions give the default attendee, validation passes, and the one
replicated booking carries the placeholder identity. -/
theorem c10_witness :
    v1Attendee (payloadOf c10Body) = some defaultAttendee
    ∧ p001Attendee (payloadOf c10Body) = some defaultAttendee
    ∧ jsTruthyO (jGetO (p001Attendee (payloadOf c10Body)) "email") = true
    ∧ (part001Post hmacConst "sec" "key" "rawbody" (some "sig0") (some c10Body) oracleOk).2
        = List.replicate 1 (p001Req (payloadOf c10Body) 2)
    ∧ (p001Req (payloadOf c10Body) 2).attName = some (JVal.jstr "Invité")
    ∧ (p001Req (payloadOf c10Body) 2).attEmail = some (JVal.jstr "no-reply@cosette.fr")
    ∧ (p001Req (payloadOf c10Body) 2).attTZ = some (JVal.jstr "Europe/Paris") := by
  exact c10_default_attendee_substitution hmacConst "sec" "key" "rawbody"
    (some "sig0") (some c10Body) oracleOk c10Body "booking.created" 2
    (by decide) rfl rfl (by decide) (by decide)
    (by simp [part001ResolvedQty, extractQty, payloadOf, c10Body, jGet, jGetO,
      jsNC, jsOr, jsIsNullish, jsTruthyO, jTruthy, isArr, p001Arrays, scanP001,
      toInt, jsParseInt, jsToString, intToStr, natToStr, natDigits,
      parseIntStr, parseDigits, List.dropWhile, List.find?])
    (by decide) (by decide) (by decide) (by decide)
    (fun j => rfl)
    (by left; rfl) (by left; rfl)

end CalAuto
